import Mathlib

/-!
Verification development for cassandra_backups/snapshotting.py.

The Python module is embedded shallowly:

* pure string/JSON manipulation becomes Lean functions on String and a
  small Json tree type (manifests are modelled at the parsed-tree level;
  json.dumps followed by json.loads is the identity on the values the
  module produces, so the byte level is not re-modelled);
* Python exceptions become an Except channel with a PyError code that
  records which kind of exception the interpreter would raise;
* the ambient current date (datetime.utcnow) and the remote cluster and
  the S3 service are external effects; they enter as explicit parameters
  (a today string, success oracles for remote phases, a Storage value);
* lifecycle methods of BackupWorker become trace-producing functions: the
  returned list of Eff values records, in execution order, the phases and
  the S3 writes that actually happened, and the Bool records whether the
  method returned normally (true) or propagated an exception (false).
-/

set_option linter.unusedVariables false

/-- Kinds of Python exceptions the embedded code can raise. A missing
dictionary key raises KeyError, a value of an unexpected shape raises
TypeError, a failed strptime raises ValueError, indexing an empty list
raises IndexError. -/
inductive PyError
  | keyError
  | typeError
  | valueError
  | indexError
deriving DecidableEq

/-- Parsed JSON values, covering the shapes the manifest format uses:
null, strings, arrays and objects. -/
inductive Json
  | null
  | str (s : String)
  | arr (elems : List Json)
  | obj (fields : List (String × Json))

/-- The Snapshot class of snapshotting.py. The attribute _base_path keeps
the constructor argument base_path; the property base_path (below) joins
it with the name. -/
structure Snapshot where
  s3_bucket : String
  name : String
  hosts : List String
  keyspaces : List String
  table : Option String
  _base_path : String
deriving DecidableEq

/-- Snapshot.make_snapshot_name returns datetime.utcnow().strftime
of the SNAPSHOT_TIMESTAMP_FORMAT pattern YYYYMMDD; the ambient current
date is passed in explicitly as the already formatted string. -/
def make_snapshot_name (today : String) : String := today

/-- The Snapshot constructor: the name defaults to the formatted current
date, every other field stores its argument. -/
def Snapshot.create (base_path s3_bucket : String) (hosts keyspaces : List String)
    (table : Option String) (today : String) : Snapshot :=
  { s3_bucket := s3_bucket
    name := make_snapshot_name today
    hosts := hosts
    keyspaces := keyspaces
    table := table
    _base_path := base_path }

/-- Snapshot.dump_manifest_file builds the manifest JSON object with the
keys name, base_path, hosts, keyspaces and table. -/
def Snapshot.dump_manifest_file (s : Snapshot) : Json :=
  Json.obj
    [("name", Json.str s.name),
     ("base_path", Json.str s._base_path),
     ("hosts", Json.arr (s.hosts.map Json.str)),
     ("keyspaces", Json.arr (s.keyspaces.map Json.str)),
     ("table", match s.table with | none => Json.null | some t => Json.str t)]

/-- Subscripting a parsed JSON object, raising KeyError when the key is
absent (as manifest_data[key] does on a dict). -/
def Json.getKey (j : Json) (k : String) : Except PyError Json :=
  match j with
  | .obj fields =>
    match fields.lookup k with
    | some v => .ok v
    | none => .error .keyError
  | _ => .error .typeError

/-- Reads a JSON string value. The Python original stores whatever value
is present without checking; the typed embedding surfaces a shape
mismatch as a TypeError instead of deferring it. -/
def Json.asString : Json → Except PyError String
  | .str s => .ok s
  | _ => .error .typeError

/-- Reads a JSON array of strings (the hosts and keyspaces fields). -/
def Json.asStringList : Json → Except PyError (List String)
  | .arr es => es.mapM Json.asString
  | _ => .error .typeError

/-- Reads the table field, which is either null (Python None) or a
string. -/
def Json.asOptString : Json → Except PyError (Option String)
  | .null => .ok none
  | .str s => .ok (some s)
  | _ => .error .typeError

/-- Snapshot.load_manifest_file: build a Snapshot from the parsed
manifest object and the out-of-band bucket, then overwrite the freshly
generated default name with the stored one. -/
def Snapshot.load_manifest_file (data : Json) (s3_bucket : String) (today : String) :
    Except PyError Snapshot := do
  let base_path ← (← data.getKey "base_path").asString
  let hosts ← (← data.getKey "hosts").asStringList
  let keyspaces ← (← data.getKey "keyspaces").asStringList
  let table ← (← data.getKey "table").asOptString
  let snapshot := Snapshot.create base_path s3_bucket hosts keyspaces table today
  let name ← (← data.getKey "name").asString
  return { snapshot with name := name }

/-- The base_path property: the slash join of the stored base path and
the snapshot name. -/
def Snapshot.base_path (s : Snapshot) : String :=
  s._base_path ++ "/" ++ s.name

/-- Numeric value of a decimal digit character. -/
def dval (c : Char) : Nat := c.toNat - 48

/-- The Y directive of the Python strptime grammar matches exactly four
decimal digits. -/
def matchYear : List Char → Option (Nat × List Char)
  | a :: b :: c :: d :: rest =>
    if a.isDigit && b.isDigit && c.isDigit && d.isDigit then
      some (dval a * 1000 + dval b * 100 + dval c * 10 + dval d, rest)
    else none
  | _ => none

/-- The month directive compiles to the alternation 1[0-2], 0[1-9],
[1-9]; the candidates are produced in that preference order. -/
def monthCands (s : List Char) : List (Nat × List Char) :=
  (match s with
   | '1' :: c :: rest => if '0' ≤ c ∧ c ≤ '2' then [(10 + dval c, rest)] else []
   | _ => [])
  ++ (match s with
   | '0' :: c :: rest => if '1' ≤ c ∧ c ≤ '9' then [(dval c, rest)] else []
   | _ => [])
  ++ (match s with
   | c :: rest => if '1' ≤ c ∧ c ≤ '9' then [(dval c, rest)] else []
   | _ => [])

/-- The day directive compiles to the alternation 3[01], [12] then a
digit, 0[1-9], [1-9]; the candidates are produced in that preference
order. -/
def dayCands (s : List Char) : List (Nat × List Char) :=
  (match s with
   | '3' :: c :: rest => if c = '0' ∨ c = '1' then [(30 + dval c, rest)] else []
   | _ => [])
  ++ (match s with
   | a :: c :: rest =>
     if (a = '1' ∨ a = '2') ∧ c.isDigit = true then [(10 * dval a + dval c, rest)] else []
   | _ => [])
  ++ (match s with
   | '0' :: c :: rest => if '1' ≤ c ∧ c ≤ '9' then [(dval c, rest)] else []
   | _ => [])
  ++ (match s with
   | c :: rest => if '1' ≤ c ∧ c ≤ '9' then [(dval c, rest)] else []
   | _ => [])

/-- Backtracking of the compiled pattern: the first month candidate for
which the day alternation matches wins, and within it the first matching
day candidate wins (nothing follows the day directive, so the regex
engine never extends a successful match further). -/
def pickMD : List (Nat × List Char) → Option (Nat × Nat × List Char)
  | [] => none
  | (m, r) :: rest =>
    match (dayCands r).head? with
    | some (d, r2) => some (m, d, r2)
    | none => pickMD rest

/-- Gregorian leap year rule, as used by the datetime constructor. -/
def isLeapYear (y : Nat) : Bool := y % 4 == 0 && (y % 100 != 0 || y % 400 == 0)

/-- Length of a month, as enforced by the datetime constructor. -/
def daysInMonth (y m : Nat) : Nat :=
  if m = 2 then (if isLeapYear y then 29 else 28)
  else if m = 4 ∨ m = 6 ∨ m = 9 ∨ m = 11 then 30
  else 31

/-- datetime.strptime with the YYYYMMDD pattern: four year digits, then
the month and day alternations, then the whole string must have been
consumed (otherwise strptime raises for unconverted data), then the
datetime constructor checks the year is at least MINYEAR = 1 and the day
fits the month. Returns none where Python raises ValueError. -/
def strptimeYmd (s : String) : Option (Nat × Nat × Nat) :=
  match matchYear s.data with
  | none => none
  | some (y, rest) =>
    match pickMD (monthCands rest) with
    | none => none
    | some (m, d, rest2) =>
      if rest2 = [] ∧ 1 ≤ y ∧ d ≤ daysInMonth y m then some (y, m, d) else none

/-- Days between a Gregorian date and 1970-01-01 (the civil-days
algorithm). Used to embed time.mktime of a midnight time tuple, which is
strictly monotone in the date; the constant UTC offset of the embedding
does not affect any comparison. -/
def civilDays (y m d : Nat) : Int :=
  let yAdj := if m ≤ 2 then y - 1 else y
  let era := yAdj / 400
  let yoe := yAdj - era * 400
  let mp := if m ≤ 2 then m + 9 else m - 3
  let doy := (153 * mp + 2) / 5 + d - 1
  let doe := yoe * 365 + yoe / 4 - yoe / 100 + doy
  ((era * 146097 + doe : Nat) : Int) - 719468

/-- Snapshot.unix_time_name: strptime the name with the YYYYMMDD pattern
and return the epoch milliseconds of that date; ValueError when the name
does not parse. -/
def Snapshot.unix_time_name (s : Snapshot) : Except PyError Int :=
  match strptimeYmd s.name with
  | none => .error .valueError
  | some (y, m, d) => .ok (civilDays y m d * 86400000)

/-- The comparison of two snapshots: the difference of their
unix_time_name values, evaluating the left operand first. -/
def cmpSnap (a b : Snapshot) : Except PyError Int := do
  let x ← a.unix_time_name
  let y ← b.unix_time_name
  return x - y

/-- The milliseconds key of a snapshot whose name parses (0 as an unused
placeholder otherwise); only applied under a parses hypothesis. -/
def snapKey (s : Snapshot) : Int :=
  match s.unix_time_name with
  | .ok k => k
  | .error _ => 0

/-- Most-recent-first ordering on snapshots: a precedes b when the key of
a is at least the key of b. -/
def descBy (a b : Snapshot) : Prop := snapKey b ≤ snapKey a

instance : DecidableRel descBy := fun a b =>
  inferInstanceAs (Decidable (snapKey b ≤ snapKey a))

instance : IsTotal Snapshot descBy := ⟨fun a b => le_total (snapKey b) (snapKey a)⟩

instance : IsTrans Snapshot descBy := ⟨fun _ _ _ h1 h2 => le_trans h2 h1⟩

/-- Stable insertion of a snapshot into an already sorted list, calling
the raising comparator: the element goes in front of the first element it
compares greater-or-equal to. -/
def insertDescE (a : Snapshot) : List Snapshot → Except PyError (List Snapshot)
  | [] => .ok [a]
  | b :: l => do
    let c ← cmpSnap a b
    if 0 ≤ c then
      return a :: b :: l
    else
      let r ← insertDescE a l
      return b :: r

/-- The Python call sorted(snapshots, reverse=True) under the raising
comparator of Snapshot. A stable sort evaluates the comparator on both
operands of at least one comparison per element whenever the list has two
or more elements, so this insertion sort raises ValueError in exactly the
situations the CPython sort does: some name fails strptime and the list
has at least two elements. On raise-free input both produce the same
stable descending order. -/
def sortDescE : List Snapshot → Except PyError (List Snapshot)
  | [] => .ok []
  | a :: l => do
    let r ← sortDescE l
    insertDescE a r

/-- Sixteen spaces: the backslash line continuation inside the snapshot
command template string keeps the indentation of the continued line as
literal text. -/
def contIndent : String := "                "

/-- The incremental template, nodetool flush with a keyspace slot and a
tables slot, after percent substitution. -/
def flush_command (nodetool keyspace tables : String) : String :=
  nodetool ++ " flush " ++ keyspace ++ " " ++ tables

/-- The full-snapshot template, nodetool snapshot with a table parameter
slot, the snapshot name after -t, and a keyspaces slot, after percent
substitution (including the line-continuation spaces of the source
literal). -/
def snapshot_command (nodetool table_param snapName keyspaces : String) : String :=
  nodetool ++ " snapshot " ++ table_param ++ " " ++ contIndent ++ "-t " ++
    snapName ++ " " ++ keyspaces

/-- BackupWorker.node_start_backup: the list of commands issued on one
node, in order. Incremental with a truthy keyspace list: one flush per
keyspace, the tables slot holding the table or the empty string.
Incremental otherwise: a single flush with empty slots. Full with a
truthy table: one snapshot command per keyspace, the table parameter
being -cf followed by the table. Full otherwise: a single snapshot
command whose keyspaces slot joins all keyspaces with spaces. -/
def node_start_backup (nodetool : String) (s : Snapshot) (incremental_backups : Bool) :
    List String :=
  if incremental_backups then
    match s.keyspaces with
    | [] => [flush_command nodetool "" ""]
    | ks => ks.map (fun keyspace => flush_command nodetool keyspace (s.table.getD ""))
  else
    let t := s.table.getD ""
    if t ≠ "" then
      s.keyspaces.map (fun keyspace =>
        snapshot_command nodetool ("-cf " ++ t) s.name keyspace)
    else
      [snapshot_command nodetool "" s.name (String.intercalate " " s.keyspaces)]

/-- Observable effects of one BackupWorker lifecycle run, in execution
order: the cluster-wide phases and the individual S3 writes (identified
by their destination key). -/
inductive Eff
  | startBackup (incremental : Bool)
  | uploadBackups (incremental : Bool)
  | clearSnapshot
  | s3Write (key : String)
deriving DecidableEq

/-- Success oracle for the external effects of one run: whether each
remote phase returns without raising, and whether the S3 put of a given
key succeeds. -/
structure Outcomes where
  startOk : Bool
  uploadOk : Bool
  cleanupOk : Bool
  writeOk : String → Bool

/-- True on the cleanup event. -/
def isClear : Eff → Bool
  | .clearSnapshot => true
  | _ => false

/-- True on an S3 write event. -/
def isS3Write : Eff → Bool
  | .s3Write _ => true
  | _ => false

/-- True on an S3 write to the given key. -/
def touches (key : String) : Eff → Bool
  | .s3Write k => k = key
  | _ => false

/-- The per-keyspace loop of BackupWorker.write_schema: one write of
schema_KEYSPACE.cql under the snapshot base path for each keyspace,
stopping at the first failed put. -/
def schemaLoop (o : Outcomes) (s : Snapshot) : List String → List Eff × Bool
  | [] => ([], true)
  | ks :: rest =>
    let key := s.base_path ++ "/schema_" ++ ks ++ ".cql"
    if o.writeOk key then
      let (es, b) := schemaLoop o s rest
      (Eff.s3Write key :: es, b)
    else ([], false)

/-- BackupWorker.write_schema: per-keyspace schema files when the
keyspace list is truthy, otherwise a single combined schema.cql. -/
def writeSchemaRun (o : Outcomes) (s : Snapshot) : List Eff × Bool :=
  match s.keyspaces with
  | [] =>
    let key := s.base_path ++ "/schema.cql"
    if o.writeOk key then ([Eff.s3Write key], true) else ([], false)
  | ks => schemaLoop o s ks

/-- BackupWorker.snapshot: the full backup lifecycle. The try block runs
the start phase then the upload phase; the finally block always runs the
cleanup phase once, after which a pending exception (from the try block
or from the cleanup itself) propagates; only a fully clean try/finally
continues into the ring write, the manifest write and the optional
schema dump, in that order, each aborting the run on failure. -/
def snapshotRun (o : Outcomes) (backup_schema : Bool) (s : Snapshot) : List Eff × Bool :=
  let tryEv := Eff.startBackup false ::
    (if o.startOk then [Eff.uploadBackups false] else [])
  let ev1 := tryEv ++ [Eff.clearSnapshot]
  if o.startOk && o.uploadOk && o.cleanupOk then
    let ringKey := s.base_path ++ "/ring"
    if o.writeOk ringKey then
      let ev2 := ev1 ++ [Eff.s3Write ringKey]
      let manifestKey := s.base_path ++ "/manifest.json"
      if o.writeOk manifestKey then
        let ev3 := ev2 ++ [Eff.s3Write manifestKey]
        if backup_schema then
          let (es, b) := writeSchemaRun o s
          (ev3 ++ es, b)
        else (ev3, true)
      else (ev2, false)
    else (ev1, false)
  else (ev1, false)

/-- BackupWorker.update_snapshot: the incremental lifecycle. Start phase
(flush), upload phase, ring write, optional schema dump; there is no
cleanup phase and no manifest write, and any failure aborts the rest of
the run. -/
def updateRun (o : Outcomes) (backup_schema : Bool) (s : Snapshot) : List Eff × Bool :=
  if o.startOk then
    if o.uploadOk then
      let ringKey := s.base_path ++ "/ring"
      if o.writeOk ringKey then
        let ev := [Eff.startBackup true, Eff.uploadBackups true, Eff.s3Write ringKey]
        if backup_schema then
          let (es, b) := writeSchemaRun o s
          (ev ++ es, b)
        else (ev, true)
      else ([Eff.startBackup true, Eff.uploadBackups true], false)
    else ([Eff.startBackup true], false)
  else ([Eff.startBackup true], false)

/-- Replay of the S3 writes of a trace over a bucket state (a partial map
from key to stored content); the content function supplies the written
bytes per key. Later writes shadow earlier ones, and only s3Write events
change the state. -/
def applyWrites (content : String → String) :
    List Eff → (String → Option String) → (String → Option String)
  | [], sto => sto
  | Eff.s3Write k :: rest, sto =>
    applyWrites content rest (fun q => if q = k then some (content k) else sto q)
  | _ :: rest, sto => applyWrites content rest sto

instance {ε α : Type} [DecidableEq ε] [DecidableEq α] : DecidableEq (Except ε α) := fun a b =>
  match a, b with
  | .ok x, .ok y =>
    if h : x = y then .isTrue (by rw [h]) else .isFalse (fun hc => h (Except.ok.inj hc))
  | .error x, .error y =>
    if h : x = y then .isTrue (by rw [h]) else .isFalse (fun hc => h (Except.error.inj hc))
  | .ok _, .error _ => .isFalse (fun hc => Except.noConfusion hc)
  | .error _, .ok _ => .isFalse (fun hc => Except.noConfusion hc)

/-- What S3 serves for a manifest key: nothing (boto raises
S3ResponseError), bytes that json.loads rejects, or bytes that parse to
the given JSON tree. -/
inductive S3Doc
  | invalid
  | valid (j : Json)

/-- The slice of the S3 service SnapshotCollection._read_s3 consumes: the
names listed under the catalog prefix with the slash delimiter, and the
object fetched per key. -/
structure Storage where
  listed : List String
  getObj : String → Option S3Doc

/-- The SnapshotCollection class: constructor arguments plus the
snapshots attribute, initially None, later the populated list. -/
structure SnapshotCollection where
  base_path : String
  s3_bucket : String
  snapshots : Option (List Snapshot)
deriving DecidableEq

/-- A fresh collection, before any read. -/
def SnapshotCollection.init (base_path s3_bucket : String) : SnapshotCollection :=
  { base_path := base_path, s3_bucket := s3_bucket, snapshots := none }

/-- Python truthiness of the snapshots attribute: None and the empty list
are falsy, a nonempty list is truthy. -/
def listTruthy : Option (List Snapshot) → Bool
  | none => false
  | some [] => false
  | some (_ :: _) => true

/-- The endswith slash test of _read_s3 on the base path: true when the
last character is the slash. -/
def endsWithSlash (s : String) : Bool :=
  match s.data.getLast? with
  | some c => c = '/'
  | none => false

/-- The candidate paths of one read: the listed names with the root
prefix itself removed (it has no manifest file). -/
def candidatePaths (c : SnapshotCollection) (sto : Storage) : List String :=
  let pfx := if endsWithSlash c.base_path then c.base_path else c.base_path ++ "/"
  sto.listed.filter (fun x => x ≠ pfx)

/-- The manifest loop of _read_s3 over the candidate paths, in order: a
fetch that raises S3ResponseError logs a warning and skips the candidate;
manifest bytes that fail to parse or to load log an error and skip it; a
loaded snapshot is appended. Returns the log messages and the collected
snapshots. -/
def readEntries (sto : Storage) (bucket today : String) :
    List String → List String × List Snapshot
  | [] => ([], [])
  | p :: rest =>
    let manifest_path := p ++ "/manifest.json"
    let (logs, snaps) := readEntries sto bucket today rest
    match sto.getObj manifest_path with
    | none => (("manifest fetch failed: " ++ manifest_path) :: logs, snaps)
    | some .invalid => (("manifest parse failed: " ++ manifest_path) :: logs, snaps)
    | some (.valid j) =>
      match Snapshot.load_manifest_file j bucket today with
      | .error _ => (("manifest parse failed: " ++ manifest_path) :: logs, snaps)
      | .ok snap => (logs, snap :: snaps)

/-- The snapshots the manifest loop collects, before sorting. -/
def parsedSnapshots (c : SnapshotCollection) (sto : Storage) (today : String) :
    List Snapshot :=
  (readEntries sto c.s3_bucket today (candidatePaths c sto)).2

/-- The log messages the manifest loop emits. -/
def readLogs (c : SnapshotCollection) (sto : Storage) (today : String) : List String :=
  (readEntries sto c.s3_bucket today (candidatePaths c sto)).1

/-- SnapshotCollection._read_s3: a truthy snapshots attribute returns at
once; otherwise the manifest loop runs and the collected list is sorted
most recent first. If the sort raises, the attribute keeps the unsorted
collected list (the assignment of the sorted list never ran) and the
exception propagates. -/
def SnapshotCollection.read_s3 (c : SnapshotCollection) (sto : Storage) (today : String) :
    SnapshotCollection × Except PyError Unit :=
  if listTruthy c.snapshots then (c, .ok ())
  else
    let parsed := parsedSnapshots c sto today
    match sortDescE parsed with
    | .ok l => ({ c with snapshots := some l }, .ok ())
    | .error e => ({ c with snapshots := some parsed }, .error e)

/-- Iterating a SnapshotCollection: populate, then yield the snapshots
list. -/
def SnapshotCollection.listAll (c : SnapshotCollection) (sto : Storage) (today : String) :
    SnapshotCollection × Except PyError (List Snapshot) :=
  match c.read_s3 sto today with
  | (c2, .ok _) => (c2, .ok (c2.snapshots.getD []))
  | (c2, .error e) => (c2, .error e)

/-- SnapshotCollection.get_latest: populate, then subscript the list at
index zero, which raises IndexError when the list is empty. -/
def SnapshotCollection.get_latest (c : SnapshotCollection) (sto : Storage) (today : String) :
    SnapshotCollection × Except PyError Snapshot :=
  match c.read_s3 sto today with
  | (c2, .ok _) =>
    match c2.snapshots.getD [] with
    | [] => (c2, .error .indexError)
    | x :: _ => (c2, .ok x)
  | (c2, .error e) => (c2, .error e)

/-- The matching predicate of get_snapshot_for: hosts, keyspaces, table
and name must each equal the supplied value exactly. -/
def snapshotMatches (hosts keyspaces : List String) (table : Option String) (name : String)
    (s : Snapshot) : Bool :=
  s.hosts == hosts && s.keyspaces == keyspaces && s.table == table && s.name == name

/-- The loop of get_snapshot_for over an already populated list: the
first snapshot (hence the most recent, the list being sorted) whose four
fields all match; none when the loop falls through. -/
def snapshotFind (l : List Snapshot) (hosts keyspaces : List String)
    (table : Option String) (name : String) : Option Snapshot :=
  l.find? (snapshotMatches hosts keyspaces table name)

/-- SnapshotCollection.get_snapshot_for: populate by iterating, then scan
for the first exact match; absence is a normal None result, not an
error. -/
def SnapshotCollection.get_snapshot_for (c : SnapshotCollection) (sto : Storage)
    (today : String) (hosts keyspaces : List String) (table : Option String)
    (name : String) : SnapshotCollection × Except PyError (Option Snapshot) :=
  match c.listAll sto today with
  | (c2, .ok l) => (c2, .ok (snapshotFind l hosts keyspaces table name))
  | (c2, .error e) => (c2, .error e)

/-- A stored snapshot of the running example: one host, one keyspace, no
table, base path bp, bucket bkt. -/
def snapNamed (name : String) : Snapshot :=
  { s3_bucket := "bkt", name := name, hosts := ["h1"], keyspaces := ["ks1"],
    table := none, _base_path := "bp" }

/-- The manifest bytes (as a parsed tree) stored for such a snapshot. -/
def manifestFor (name : String) : Json := (snapNamed name).dump_manifest_file

/-- A freshly constructed collection over the example prefix. -/
def freshCollection : SnapshotCollection := SnapshotCollection.init "bp" "bkt"

/-- Storage holding three valid backups named 20230101, 20230301 and
20230215, in that listing order. -/
def stoThree : Storage :=
  { listed := ["bp/20230101", "bp/20230301", "bp/20230215"]
    getObj := fun k =>
      if k = "bp/20230101/manifest.json" then some (S3Doc.valid (manifestFor "20230101"))
      else if k = "bp/20230301/manifest.json" then some (S3Doc.valid (manifestFor "20230301"))
      else if k = "bp/20230215/manifest.json" then some (S3Doc.valid (manifestFor "20230215"))
      else none }

/-- The resilience example of the spec: three candidates, of which one
has a valid manifest, one has manifest bytes that fail to parse, and one
has no manifest object at all. -/
def stoSpecExample : Storage :=
  { listed := ["bp/20230101", "bp/cand2", "bp/cand3"]
    getObj := fun k =>
      if k = "bp/20230101/manifest.json" then some (S3Doc.valid (manifestFor "20230101"))
      else if k = "bp/cand2/manifest.json" then some S3Doc.invalid
      else none }

/-- Four candidates: one missing manifest, one unparseable manifest, one
valid backup with a well-formed name, and one valid manifest whose name
latest does not parse as a date. -/
def stoMixed : Storage :=
  { listed := ["bp/cand1", "bp/cand2", "bp/20230101", "bp/baddate"]
    getObj := fun k =>
      if k = "bp/cand2/manifest.json" then some S3Doc.invalid
      else if k = "bp/20230101/manifest.json" then some (S3Doc.valid (manifestFor "20230101"))
      else if k = "bp/baddate/manifest.json" then some (S3Doc.valid (manifestFor "latest"))
      else none }

/-- Storage with nothing under the prefix. -/
def stoEmpty : Storage := { listed := [], getObj := fun _ => none }

/-- Storage with exactly one valid backup. -/
def stoOne : Storage :=
  { listed := ["bp/20230101"]
    getObj := fun k =>
      if k = "bp/20230101/manifest.json" then some (S3Doc.valid (manifestFor "20230101"))
      else none }

/-- Two valid manifests, one of them named latest, which strptime
rejects. -/
def stoBadName : Storage :=
  { listed := ["bp/latest", "bp/20230101"]
    getObj := fun k =>
      if k = "bp/latest/manifest.json" then some (S3Doc.valid (manifestFor "latest"))
      else if k = "bp/20230101/manifest.json" then some (S3Doc.valid (manifestFor "20230101"))
      else none }

/-- A run in which the upload phase raises and everything else would
succeed. -/
def oFailUpload : Outcomes :=
  { startOk := true, uploadOk := false, cleanupOk := true, writeOk := fun _ => true }

/-- A fully successful run. -/
def oAllOk : Outcomes :=
  { startOk := true, uploadOk := true, cleanupOk := true, writeOk := fun _ => true }

/-- The command-construction example of the spec: table cf1 together with
keyspaces ks1 and ks2. -/
def snapC2 : Snapshot :=
  Snapshot.create "bp" "bkt" ["h1"] ["ks1", "ks2"] (some "cf1") "20230101"

/-- A snapshot with a full set of matching fields for the compatibility
lookup example. -/
def snapC6 : Snapshot :=
  { s3_bucket := "bkt", name := "20230101", hosts := ["h1", "h2"], keyspaces := ["ks1"],
    table := some "cf1", _base_path := "bp" }

lemma unix_eq_ok (s : Snapshot) (h : (strptimeYmd s.name).isSome) :
    s.unix_time_name = .ok (snapKey s) := by
  rcases Option.isSome_iff_exists.mp h with ⟨⟨y, m, d⟩, hy⟩
  simp [Snapshot.unix_time_name, snapKey, hy]

lemma unix_eq_err (s : Snapshot) (h : strptimeYmd s.name = none) :
    s.unix_time_name = .error PyError.valueError := by
  simp [Snapshot.unix_time_name, h]

lemma insertDescE_ok (a : Snapshot) (r : List Snapshot)
    (ha : (strptimeYmd a.name).isSome)
    (hr : ∀ s ∈ r, (strptimeYmd s.name).isSome) :
    insertDescE a r = .ok (List.orderedInsert descBy a r) := by
  induction r with
  | nil => simp [insertDescE, List.orderedInsert]
  | cons b l ih =>
    have hb := hr b (by simp)
    have hl : ∀ s ∈ l, (strptimeYmd s.name).isSome := fun s hs => hr s (by simp [hs])
    simp only [insertDescE, cmpSnap, unix_eq_ok a ha, unix_eq_ok b hb, List.orderedInsert,
      descBy, ih hl, bind, Except.bind, pure, Except.pure, Int.sub_nonneg]
    split <;> rfl

lemma sortDescE_ok (l : List Snapshot) (h : ∀ s ∈ l, (strptimeYmd s.name).isSome) :
    sortDescE l = .ok (List.insertionSort descBy l) := by
  induction l with
  | nil => simp [sortDescE, List.insertionSort]
  | cons a t ih =>
    have ht : ∀ s ∈ t, (strptimeYmd s.name).isSome := fun s hs => h s (by simp [hs])
    have hsorted : ∀ s ∈ List.insertionSort descBy t, (strptimeYmd s.name).isSome :=
      fun s hs => ht s ((List.perm_insertionSort descBy t).mem_iff.mp hs)
    simp only [sortDescE, ih ht, bind, Except.bind, List.insertionSort]
    exact insertDescE_ok a _ (h a (by simp)) hsorted

lemma insertDescE_err_left (a b : Snapshot) (r : List Snapshot)
    (ha : strptimeYmd a.name = none) :
    insertDescE a (b :: r) = .error PyError.valueError := by
  simp [insertDescE, cmpSnap, unix_eq_err a ha, bind, Except.bind]

lemma insertDescE_err_right (a b : Snapshot) (r : List Snapshot)
    (ha : (strptimeYmd a.name).isSome) (hb : strptimeYmd b.name = none) :
    insertDescE a (b :: r) = .error PyError.valueError := by
  simp [insertDescE, cmpSnap, unix_eq_ok a ha, unix_eq_err b hb, bind, Except.bind]

lemma insertDescE_err_any (a b : Snapshot) (r : List Snapshot)
    (h : strptimeYmd a.name = none ∨ strptimeYmd b.name = none) :
    insertDescE a (b :: r) = .error PyError.valueError := by
  rcases h with h | h
  · exact insertDescE_err_left a b r h
  · rcases hpa : strptimeYmd a.name with _ | ymd
    · exact insertDescE_err_left a b r hpa
    · exact insertDescE_err_right a b r (by simp [hpa]) h

lemma sortDescE_err (l : List Snapshot) (h2 : 2 ≤ l.length)
    (hbad : ∃ s ∈ l, strptimeYmd s.name = none) :
    sortDescE l = .error PyError.valueError := by
  induction l with
  | nil => simp at h2
  | cons a t ih =>
    by_cases hbt : ∃ s ∈ t, strptimeYmd s.name = none
    · rcases t with _ | ⟨b, u⟩
      · simp at hbt
      · rcases u with _ | ⟨c, v⟩
        · have hb : strptimeYmd b.name = none := by simpa using hbt
          have h1 : sortDescE [b] = .ok [b] := by
            simp [sortDescE, insertDescE, bind, Except.bind]
          simp only [sortDescE, h1, bind, Except.bind]
          exact insertDescE_err_any a b [] (Or.inr hb)
        · have hstep : sortDescE (a :: b :: c :: v) =
              Except.bind (sortDescE (b :: c :: v)) (fun r => insertDescE a r) := rfl
          rw [hstep, ih (by simp) hbt]
          rfl
    · push_neg at hbt
      have hta : ∀ s ∈ t, (strptimeYmd s.name).isSome := by
        intro s hs
        rcases hp : strptimeYmd s.name with _ | ymd
        · exact absurd hp (hbt s hs)
        · simp
      have haa : strptimeYmd a.name = none := by
        rcases hbad with ⟨s, hs, hsn⟩
        rcases List.mem_cons.mp hs with rfl | hmem
        · exact hsn
        · exact absurd hsn (hbt s hmem)
      have hsort := sortDescE_ok t hta
      have htne : t ≠ [] := by
        intro h
        subst h
        simp at h2
      have hne : List.insertionSort descBy t ≠ [] := by
        intro h
        have := (List.perm_insertionSort descBy t).length_eq
        rw [h] at this
        exact htne (List.length_eq_zero.mp this.symm)
      rcases hseq : List.insertionSort descBy t with _ | ⟨x, r⟩
      · exact absurd hseq hne
      · simp only [sortDescE, hsort, hseq, bind, Except.bind]
        exact insertDescE_err_any a x r (Or.inl haa)

lemma readEntries_count (sto : Storage) (bucket today : String) (ps : List String) :
    (readEntries sto bucket today ps).1.length + (readEntries sto bucket today ps).2.length
      = ps.length := by
  induction ps with
  | nil => simp [readEntries]
  | cons p rest ih =>
    simp only [readEntries]
    rcases hobj : sto.getObj (p ++ "/manifest.json") with _ | doc
    · simp only [hobj, List.length_cons]
      omega
    · rcases doc with _ | j
      · simp only [hobj, List.length_cons]
        omega
      · rcases hload : Snapshot.load_manifest_file j bucket today with e | snap
        · simp only [hobj, hload, List.length_cons]
          omega
        · simp only [hobj, hload, List.length_cons]
          omega

lemma schemaLoop_mem (o : Outcomes) (s : Snapshot) (ks : List String) :
    ∀ e ∈ (schemaLoop o s ks).1,
      ∃ k, k ∈ ks ∧ e = Eff.s3Write (s.base_path ++ "/schema_" ++ k ++ ".cql") := by
  induction ks with
  | nil => simp [schemaLoop]
  | cons k rest ih =>
    intro e he
    simp only [schemaLoop] at he
    split at he
    · rcases List.mem_cons.mp he with rfl | hmem
      · exact ⟨k, by simp⟩
      · rcases ih e hmem with ⟨k2, hk2, rfl⟩
        exact ⟨k2, by simp [hk2]⟩
    · simp at he

lemma writeSchemaRun_mem (o : Outcomes) (s : Snapshot) :
    ∀ e ∈ (writeSchemaRun o s).1,
      e = Eff.s3Write (s.base_path ++ "/schema.cql") ∨
      ∃ k, k ∈ s.keyspaces ∧ e = Eff.s3Write (s.base_path ++ "/schema_" ++ k ++ ".cql") := by
  intro e he
  rcases hks : s.keyspaces with _ | ⟨k, rest⟩
  · simp only [writeSchemaRun, hks] at he
    split at he
    · simp at he
      exact Or.inl he
    · simp at he
  · simp only [writeSchemaRun, hks] at he
    exact Or.inr (by simpa [hks] using schemaLoop_mem o s (k :: rest) e he)

lemma applyWrites_not_touched (content : String → String) (evs : List Eff)
    (sto : String → Option String) (key : String)
    (h : ∀ e ∈ evs, touches key e = false) :
    applyWrites content evs sto key = sto key := by
  induction evs generalizing sto with
  | nil => rfl
  | cons e rest ih =>
    have hrest : ∀ x ∈ rest, touches key x = false := fun x hx => h x (by simp [hx])
    rcases e with i | i | _ | k
    · simpa [applyWrites] using ih sto hrest
    · simpa [applyWrites] using ih sto hrest
    · simpa [applyWrites] using ih sto hrest
    · have hk : ¬ (k = key) := by simpa [touches] using h (Eff.s3Write k) (by simp)
      have hne : ¬ (key = k) := fun hkk => hk hkk.symm
      simpa [applyWrites, hne] using
        ih (fun q => if q = k then some (content k) else sto q) hrest

lemma append_ne_of_ne (p a b : String) (h : a ≠ b) : p ++ a ≠ p ++ b := by
  intro he
  apply h
  have hd := congrArg String.data he
  simp only [String.data_append] at hd
  exact String.ext (List.append_cancel_left hd)

lemma ring_key_ne_manifest (bp : String) : bp ++ "/ring" ≠ bp ++ "/manifest.json" :=
  append_ne_of_ne bp "/ring" "/manifest.json" (by decide)

lemma schemacql_key_ne_manifest (bp : String) :
    bp ++ "/schema.cql" ≠ bp ++ "/manifest.json" :=
  append_ne_of_ne bp "/schema.cql" "/manifest.json" (by decide)

lemma schemaks_key_ne_manifest (bp ks : String) :
    bp ++ "/schema_" ++ ks ++ ".cql" ≠ bp ++ "/manifest.json" := by
  intro he
  have hd := congrArg String.data he
  simp only [String.data_append] at hd
  simp [List.append_assoc] at hd

lemma writeSchemaRun_countP_clear (o : Outcomes) (s : Snapshot) :
    (writeSchemaRun o s).1.countP isClear = 0 := by
  rw [List.countP_eq_zero]
  intro e he
  rcases writeSchemaRun_mem o s e he with rfl | ⟨k, _, rfl⟩ <;> simp [isClear]

lemma mapM_asString_map_str (l : List String) :
    (l.map Json.str).mapM Json.asString = Except.ok l := by
  induction l with
  | nil => rfl
  | cons a t ih =>
    rw [List.map_cons, List.mapM_cons, ih]
    rfl

lemma mapM_loop_asString (l : List String) :
    List.mapM.loop Json.asString (l.map Json.str) [] = Except.ok l :=
  mapM_asString_map_str l

lemma writeSchemaRun_all_writes (o : Outcomes) (s : Snapshot) :
    ∀ e ∈ (writeSchemaRun o s).1, isS3Write e = true := by
  intro e he
  rcases writeSchemaRun_mem o s e he with rfl | ⟨k, _, rfl⟩ <;> rfl

lemma snapshotRun_decomp (o : Outcomes) (bs : Bool) (s : Snapshot) :
    ∃ post, (snapshotRun o bs s).1 =
      (Eff.startBackup false :: (if o.startOk then [Eff.uploadBackups false] else [])) ++
        Eff.clearSnapshot :: post ∧
      post.countP isClear = 0 ∧
      (∀ e ∈ post, isS3Write e = true) ∧
      ((o.startOk && o.uploadOk) = false → post = [] ∧ (snapshotRun o bs s).2 = false) := by
  rcases hs : o.startOk <;> rcases hu : o.uploadOk <;> rcases hc : o.cleanupOk <;>
    simp only [snapshotRun, hs, hu, hc, Bool.and_self, Bool.and_true, Bool.and_false,
      Bool.true_and, Bool.false_and, if_true, if_false, Bool.false_eq_true]
  case true.true.true =>
    by_cases hr : o.writeOk (s.base_path ++ "/ring")
    · by_cases hm : o.writeOk (s.base_path ++ "/manifest.json")
      · rcases bs with _ | _
        · simp only [hr, hm, if_true, if_false, Bool.false_eq_true]
          exact ⟨[Eff.s3Write (s.base_path ++ "/ring"),
                  Eff.s3Write (s.base_path ++ "/manifest.json")],
            by simp, by simp [isClear], by simp [isS3Write], by simp⟩
        · simp only [hr, hm, if_true]
          refine ⟨[Eff.s3Write (s.base_path ++ "/ring"),
                  Eff.s3Write (s.base_path ++ "/manifest.json")] ++ (writeSchemaRun o s).1,
            ?_, ?_, ?_, by simp⟩
          · simp
          · simp [List.countP_append, isClear, writeSchemaRun_countP_clear]
          · intro e he
            rcases List.mem_append.mp he with h2 | h2
            · simp only [List.mem_cons, List.not_mem_nil, or_false] at h2
              rcases h2 with rfl | rfl <;> rfl
            · exact writeSchemaRun_all_writes o s e h2
      · simp only [hr, hm, if_true, if_false]
        exact ⟨[Eff.s3Write (s.base_path ++ "/ring")],
          by simp, by simp [isClear], by simp [isS3Write], by simp⟩
    · simp only [hr, if_false]
      exact ⟨[], by simp, by simp, by simp, by simp⟩
  all_goals exact ⟨[], by simp, by simp, by simp, by simp⟩

lemma updateRun_mem (o : Outcomes) (bs : Bool) (s : Snapshot) :
    ∀ e ∈ (updateRun o bs s).1,
      isClear e = false ∧ touches (s.base_path ++ "/manifest.json") e = false := by
  intro e he
  have hring : touches (s.base_path ++ "/manifest.json")
      (Eff.s3Write (s.base_path ++ "/ring")) = false := by
    simp [touches, ring_key_ne_manifest s.base_path]
  rcases hs : o.startOk <;> rcases hu : o.uploadOk <;>
    simp only [updateRun, hs, hu, if_true, if_false, Bool.false_eq_true] at he
  · rcases List.mem_singleton.mp he with rfl
    exact ⟨rfl, rfl⟩
  · rcases List.mem_singleton.mp he with rfl
    exact ⟨rfl, rfl⟩
  · rcases List.mem_singleton.mp he with rfl
    exact ⟨rfl, rfl⟩
  · by_cases hr : o.writeOk (s.base_path ++ "/ring")
    · simp only [hr, if_true] at he
      rcases bs with _ | _
      · rw [if_neg Bool.false_ne_true] at he
        simp only [List.mem_cons, List.not_mem_nil, or_false] at he
        rcases he with rfl | rfl | rfl
        · exact ⟨rfl, rfl⟩
        · exact ⟨rfl, rfl⟩
        · exact ⟨rfl, hring⟩
      · rw [if_pos rfl] at he
        rcases List.mem_append.mp he with h2 | h2
        · simp only [List.mem_cons, List.not_mem_nil, or_false] at h2
          rcases h2 with rfl | rfl | rfl
          · exact ⟨rfl, rfl⟩
          · exact ⟨rfl, rfl⟩
          · exact ⟨rfl, hring⟩
        · rcases writeSchemaRun_mem o s e h2 with rfl | ⟨k, _, rfl⟩
          · exact ⟨rfl, by simp [touches, schemacql_key_ne_manifest s.base_path]⟩
          · exact ⟨rfl, by simp [touches, schemaks_key_ne_manifest s.base_path k]⟩
    · rw [if_neg hr] at he
      simp only [List.mem_cons, List.not_mem_nil, or_false] at he
      rcases he with rfl | rfl
      · exact ⟨rfl, rfl⟩
      · exact ⟨rfl, rfl⟩

/-- C1: in a full backup (BackupWorker.snapshot), the cleanup phase runs
exactly once on every possible outcome; it runs before any S3 write
(ring, manifest or schema); and when the start phase or the upload phase
raises, the run still ends in failure with the cleanup event as the very
last thing that happened before the error surfaces. -/
theorem C1_full_backup_cleanup (o : Outcomes) (bs : Bool) (s : Snapshot) :
    ((snapshotRun o bs s).1.countP isClear = 1) ∧
    (∃ pre post, (snapshotRun o bs s).1 = pre ++ Eff.clearSnapshot :: post ∧
      pre.countP isClear = 0 ∧ post.countP isClear = 0 ∧ pre.countP isS3Write = 0) ∧
    ((o.startOk = false ∨ o.uploadOk = false) →
      (snapshotRun o bs s).2 = false ∧
      ∃ pre, (snapshotRun o bs s).1 = pre ++ [Eff.clearSnapshot]) := by
  obtain ⟨post, htr, hpc, hpw, himp⟩ := snapshotRun_decomp o bs s
  have hpre0 : (Eff.startBackup false ::
      (if o.startOk then [Eff.uploadBackups false] else [])).countP isClear = 0 := by
    rcases o.startOk <;> simp [isClear]
  have hpre1 : (Eff.startBackup false ::
      (if o.startOk then [Eff.uploadBackups false] else [])).countP isS3Write = 0 := by
    rcases o.startOk <;> simp [isS3Write]
  refine ⟨?_, ⟨_, post, htr, hpre0, hpc, hpre1⟩, ?_⟩
  · rw [htr, List.countP_append, hpre0, List.countP_cons, hpc]
    simp [isClear]
  · intro hfail
    have hb : (o.startOk && o.uploadOk) = false := by
      rcases hfail with h | h <;> simp [h]
    obtain ⟨hpost, hres⟩ := himp hb
    subst hpost
    exact ⟨hres, _, htr⟩

/-- C1 witness: with a failing upload phase and everything else healthy,
the full-backup run performs cleanup exactly once, fails, and the cleanup
event is the last event of the trace. -/
theorem C1_full_backup_cleanup_witness :
    ((snapshotRun oFailUpload true (snapNamed "20230101")).1.countP isClear = 1) ∧
    ((snapshotRun oFailUpload true (snapNamed "20230101")).2 = false ∧
      ∃ pre, (snapshotRun oFailUpload true (snapNamed "20230101")).1 =
        pre ++ [Eff.clearSnapshot]) :=
  ⟨(C1_full_backup_cleanup oFailUpload true (snapNamed "20230101")).1,
   (C1_full_backup_cleanup oFailUpload true (snapNamed "20230101")).2.2 (Or.inr rfl)⟩

/-- C2: node_start_backup issues, for a full backup with a truthy table,
one snapshot command per keyspace scoped with -cf TABLE; for a full
backup without a table, exactly one snapshot command whose keyspaces slot
joins all keyspaces with spaces (empty when there are none); for an
incremental backup with keyspaces, one flush command per keyspace whose
tables slot is the table or empty; and for an incremental backup without
keyspaces, exactly one unscoped flush command. -/
theorem C2_node_start_backup_commands (nodetool : String) (s : Snapshot) (t : String) :
    (s.table = some t → t ≠ "" →
      node_start_backup nodetool s false =
        s.keyspaces.map (fun keyspace =>
          snapshot_command nodetool ("-cf " ++ t) s.name keyspace)) ∧
    (s.table = none →
      node_start_backup nodetool s false =
        [snapshot_command nodetool "" s.name (String.intercalate " " s.keyspaces)]) ∧
    (s.keyspaces ≠ [] →
      node_start_backup nodetool s true =
        s.keyspaces.map (fun keyspace => flush_command nodetool keyspace (s.table.getD ""))) ∧
    (s.keyspaces = [] →
      node_start_backup nodetool s true = [flush_command nodetool "" ""]) := by
  refine ⟨?_, ?_, ?_, ?_⟩
  · intro ht hne
    simp [node_start_backup, ht, hne]
  · intro ht
    simp [node_start_backup, ht]
  · intro hk
    rcases hks : s.keyspaces with _ | ⟨k, rest⟩
    · exact absurd hks hk
    · simp [node_start_backup, hks]
  · intro hk
    simp [node_start_backup, hk]

/-- C2 witness: with table cf1 and keyspaces ks1, ks2, a full backup
issues exactly the two snapshot commands scoped with -cf cf1; an
incremental backup with no keyspaces issues exactly one unscoped flush
command, and with the two keyspaces one flush per keyspace. -/
theorem C2_node_start_backup_commands_witness :
    (node_start_backup "nodetool" snapC2 false =
      [snapshot_command "nodetool" "-cf cf1" "20230101" "ks1",
       snapshot_command "nodetool" "-cf cf1" "20230101" "ks2"]) ∧
    ((node_start_backup "nodetool" snapC2 false).length = 2) ∧
    (node_start_backup "nodetool" { snapC2 with keyspaces := [] } true =
      [flush_command "nodetool" "" ""]) ∧
    (node_start_backup "nodetool" snapC2 true =
      [flush_command "nodetool" "ks1" "cf1", flush_command "nodetool" "ks2" "cf1"]) :=
  ⟨by
      have h := (C2_node_start_backup_commands "nodetool" snapC2 "cf1").1 rfl (by decide)
      simpa using h,
   by decide,
   (C2_node_start_backup_commands "nodetool" { snapC2 with keyspaces := [] } "cf1").2.2.2 rfl,
   by
      have h := (C2_node_start_backup_commands "nodetool" snapC2 "cf1").2.2.1 (by decide)
      simpa using h⟩

/-- C3: when every collected descriptor has a name the timestamp parser
accepts, a first listAll succeeds and yields exactly the collected
descriptors, reordered most recent first (descending by the time parsed
from the name). -/
theorem C3_list_all_sorted (sto : Storage) (c : SnapshotCollection) (today : String)
    (hfresh : c.snapshots = none)
    (hok : ∀ s ∈ parsedSnapshots c sto today, (strptimeYmd s.name).isSome) :
    ∃ l, (c.listAll sto today).2 = Except.ok l ∧
      List.Sorted descBy l ∧ l.Perm (parsedSnapshots c sto today) := by
  have hread : c.read_s3 sto today =
      (⟨c.base_path, c.s3_bucket,
          some (List.insertionSort descBy (parsedSnapshots c sto today))⟩, Except.ok ()) := by
    simp only [SnapshotCollection.read_s3, hfresh, listTruthy, Bool.false_eq_true,
      if_false]
    rw [sortDescE_ok _ hok]
  refine ⟨List.insertionSort descBy (parsedSnapshots c sto today), ?_,
    List.sorted_insertionSort descBy _, List.perm_insertionSort descBy _⟩
  simp [SnapshotCollection.listAll, hread]

/-- C3 witness: manifests named 20230101, 20230301 and 20230215 come back
from listAll in the order 20230301, 20230215, 20230101. -/
theorem C3_list_all_sorted_witness :
    ((freshCollection.listAll stoThree "20230401").2 =
      Except.ok [snapNamed "20230301", snapNamed "20230215", snapNamed "20230101"]) ∧
    (∃ l, (freshCollection.listAll stoThree "20230401").2 = Except.ok l ∧
      List.Sorted descBy l ∧ l.Perm (parsedSnapshots freshCollection stoThree "20230401")) :=
  ⟨by decide, C3_list_all_sorted stoThree freshCollection "20230401" rfl (by decide)⟩

/-- C4 counterexample: a listing with a fetch-failing candidate, an
invalid-JSON candidate, one valid well-named backup and one valid backup
whose name does not parse. The claim as stated promises the two valid
descriptors back; the code instead raises ValueError out of the sort and
listAll returns nothing. -/
theorem C4_skip_policy_counterexample :
    (parsedSnapshots freshCollection stoMixed "20230401").length = 2 ∧
    (freshCollection.listAll stoMixed "20230401").2 = Except.error PyError.valueError := by
  decide

/-- C4 as amended: candidates with a missing manifest object or manifest
content that fails to parse are skipped, each leaving one log message
(logs plus survivors add up to the candidate count), and provided every
surviving descriptor carries a parseable name, listAll does not raise and
returns exactly the surviving descriptors. -/
theorem C4_skip_policy (sto : Storage) (c : SnapshotCollection) (today : String)
    (hfresh : c.snapshots = none)
    (hok : ∀ s ∈ parsedSnapshots c sto today, (strptimeYmd s.name).isSome) :
    (∃ l, (c.listAll sto today).2 = Except.ok l ∧ l.Perm (parsedSnapshots c sto today)) ∧
    (readLogs c sto today).length + (parsedSnapshots c sto today).length
      = (candidatePaths c sto).length := by
  constructor
  · have hread : c.read_s3 sto today =
        (⟨c.base_path, c.s3_bucket,
            some (List.insertionSort descBy (parsedSnapshots c sto today))⟩,
          Except.ok ()) := by
      simp only [SnapshotCollection.read_s3, hfresh, listTruthy, Bool.false_eq_true,
        if_false]
      rw [sortDescE_ok _ hok]
    refine ⟨List.insertionSort descBy (parsedSnapshots c sto today), ?_,
      List.perm_insertionSort descBy _⟩
    simp [SnapshotCollection.listAll, hread]
  · exact readEntries_count sto c.s3_bucket today (candidatePaths c sto)

/-- C4 witness: the three-candidate example of the spec (one missing
manifest, one invalid JSON, one valid) yields exactly the one valid
descriptor with two log messages and no error. -/
theorem C4_skip_policy_witness :
    ((freshCollection.listAll stoSpecExample "20230401").2 =
      Except.ok [snapNamed "20230101"]) ∧
    ((readLogs freshCollection stoSpecExample "20230401").length = 2) ∧
    ((∃ l, (freshCollection.listAll stoSpecExample "20230401").2 = Except.ok l ∧
        l.Perm (parsedSnapshots freshCollection stoSpecExample "20230401")) ∧
      (readLogs freshCollection stoSpecExample "20230401").length +
        (parsedSnapshots freshCollection stoSpecExample "20230401").length
        = (candidatePaths freshCollection stoSpecExample).length) :=
  ⟨by decide, by decide,
    C4_skip_policy stoSpecExample freshCollection "20230401" rfl (by decide)⟩

/-- C5 counterexample: on a catalog in which zero valid descriptors were
found, get_latest fails with the generic IndexError coming from
subscripting the empty cached list; there is no dedicated empty-catalog
error anywhere in the code, so the claimed EmptyCatalogError cannot be
what surfaces. -/
theorem C5_latest_counterexample :
    ((freshCollection.listAll stoEmpty "20230101").2 = Except.ok []) ∧
    (freshCollection.get_latest stoEmpty "20230101").2 = Except.error PyError.indexError := by
  decide

/-- C5 as amended: get_latest on a catalog whose population found zero
valid descriptors fails with the generic IndexError of subscripting an
empty list (not a dedicated error type), and on a non-empty catalog
returns the first, most recent descriptor of the descending-sorted
sequence. -/
theorem C5_latest_behavior (sto : Storage) (c : SnapshotCollection) (today : String) :
    ((c.listAll sto today).2 = Except.ok [] →
      (c.get_latest sto today).2 = Except.error PyError.indexError) ∧
    (∀ x xs, (c.listAll sto today).2 = Except.ok (x :: xs) →
      (c.get_latest sto today).2 = Except.ok x) := by
  rcases hr : c.read_s3 sto today with ⟨c2, r⟩
  rcases r with e | u
  · constructor
    · intro h
      exfalso
      simp [SnapshotCollection.listAll, hr] at h
    · intro x xs h
      exfalso
      simp [SnapshotCollection.listAll, hr] at h
  · constructor
    · intro h
      have hg : c2.snapshots.getD [] = [] := by
        simpa [SnapshotCollection.listAll, hr] using h
      simp [SnapshotCollection.get_latest, hr, hg]
    · intro x xs h
      have hg : c2.snapshots.getD [] = x :: xs := by
        simpa [SnapshotCollection.listAll, hr] using h
      simp [SnapshotCollection.get_latest, hr, hg]

/-- C5 witness: the empty catalog fails with IndexError; the
three-backup catalog returns the most recent descriptor 20230301. -/
theorem C5_latest_behavior_witness :
    ((freshCollection.get_latest stoEmpty "20230101").2 =
      Except.error PyError.indexError) ∧
    ((freshCollection.get_latest stoThree "20230401").2 = Except.ok (snapNamed "20230301")) :=
  ⟨(C5_latest_behavior stoEmpty freshCollection "20230101").1 (by decide),
   (C5_latest_behavior stoThree freshCollection "20230401").2 (snapNamed "20230301")
     [snapNamed "20230215", snapNamed "20230101"] (by decide)⟩

/-- C6: the compatibility lookup finds a descriptor exactly when some
catalog entry matches hosts, keyspaces, table and name all at once; any
returned descriptor is a catalog entry with precisely the requested four
field values; and when nothing matches the result is the absent value,
not an error. -/
theorem C6_find_compatible_exact (l : List Snapshot) (hosts keyspaces : List String)
    (table : Option String) (name : String) :
    ((snapshotFind l hosts keyspaces table name).isSome ↔
      ∃ s ∈ l, s.hosts = hosts ∧ s.keyspaces = keyspaces ∧ s.table = table ∧ s.name = name) ∧
    (∀ s, snapshotFind l hosts keyspaces table name = some s →
      s ∈ l ∧ s.hosts = hosts ∧ s.keyspaces = keyspaces ∧ s.table = table ∧ s.name = name) := by
  constructor
  · rw [snapshotFind, List.find?_isSome]
    constructor
    · rintro ⟨s, hs, hp⟩
      refine ⟨s, hs, ?_⟩
      simpa [snapshotMatches, and_assoc] using hp
    · rintro ⟨s, hs, hp⟩
      refine ⟨s, hs, ?_⟩
      simpa [snapshotMatches, and_assoc] using hp
  · intro s hfind
    refine ⟨List.mem_of_find?_eq_some hfind, ?_⟩
    simpa [snapshotMatches, and_assoc] using List.find?_some hfind

/-- C6 witness: the fully matching query returns the stored descriptor
with exactly the requested fields, and changing one field (dropping a
host) returns the absent value. -/
theorem C6_find_compatible_exact_witness :
    (snapshotFind [snapC6] ["h1", "h2"] ["ks1"] (some "cf1") "20230101" = some snapC6) ∧
    (snapC6 ∈ [snapC6] ∧ snapC6.hosts = ["h1", "h2"] ∧ snapC6.keyspaces = ["ks1"] ∧
      snapC6.table = some "cf1" ∧ snapC6.name = "20230101") ∧
    (snapshotFind [snapC6] ["h1"] ["ks1"] (some "cf1") "20230101" = none) :=
  ⟨by decide,
   (C6_find_compatible_exact [snapC6] ["h1", "h2"] ["ks1"] (some "cf1") "20230101").2
     snapC6 (by decide),
   by decide⟩

/-- C7: dump_manifest_file produces a JSON object carrying exactly the
keys name, base_path, hosts, keyspaces and table; loading that object
back (with the bucket supplied out of band, on any current date)
reconstructs the descriptor with the stored name winning over the fresh
default, so all five stored fields survive and dumping again reproduces
the identical manifest. -/
theorem C7_manifest_roundtrip (s : Snapshot) (bucket today : String) :
    (∃ fs, s.dump_manifest_file = Json.obj fs ∧
      fs.map Prod.fst = ["name", "base_path", "hosts", "keyspaces", "table"]) ∧
    Snapshot.load_manifest_file s.dump_manifest_file bucket today =
      Except.ok { s with s3_bucket := bucket } ∧
    ({ s with s3_bucket := bucket } : Snapshot).dump_manifest_file = s.dump_manifest_file := by
  obtain ⟨bkt, nm, hs, ks, tb, bp⟩ := s
  refine ⟨⟨_, rfl, rfl⟩, ?_, rfl⟩
  rcases tb with _ | t <;>
    simp [Snapshot.dump_manifest_file, Snapshot.load_manifest_file, Json.getKey,
      List.lookup, Json.asString, Json.asOptString, Json.asStringList,
      mapM_asString_map_str, mapM_loop_asString, Snapshot.create, make_snapshot_name,
      bind, Except.bind, pure, Except.pure]

/-- C8 counterexample: a first listAll that found zero valid descriptors
does not stick. With the storage changed afterwards, a second listAll on
the same collection returns the freshly read descriptor instead of the
cached empty result, because the empty list is falsy and _read_s3 runs
again. -/
theorem C8_population_caching_counterexample :
    ((freshCollection.listAll stoEmpty "20230101").2 = Except.ok []) ∧
    (((freshCollection.listAll stoEmpty "20230101").1.listAll stoOne "20230101").2 =
      Except.ok [snapNamed "20230101"]) ∧
    (Except.ok [snapNamed "20230101"] ≠ (Except.ok [] : Except PyError (List Snapshot))) := by
  decide

/-- C8 as amended: a populated non-empty cache is served unchanged on
every later call whatever the storage now holds; a cache populated with
the empty list is falsy and behaves exactly like an unpopulated one, so
the next call reads storage again; and a first call on an unpopulated
collection always populates the snapshots attribute. -/
theorem C8_population_caching (c : SnapshotCollection) (sto : Storage) (today : String)
    (x : Snapshot) (xs : List Snapshot) :
    (c.snapshots = some (x :: xs) → c.listAll sto today = (c, Except.ok (x :: xs))) ∧
    (c.snapshots = some [] →
      c.listAll sto today =
        ({ c with snapshots := none } : SnapshotCollection).listAll sto today) ∧
    (c.snapshots = none → ∃ l, ((c.listAll sto today).1).snapshots = some l) := by
  refine ⟨?_, ?_, ?_⟩
  · intro h
    simp [SnapshotCollection.listAll, SnapshotCollection.read_s3, h, listTruthy]
  · intro h
    obtain ⟨bp, bkt, sn⟩ := c
    simp only at h
    subst h
    simp only [SnapshotCollection.listAll, SnapshotCollection.read_s3, listTruthy,
      Bool.false_eq_true, if_false]
    rcases hs : sortDescE (parsedSnapshots ⟨bp, bkt, some []⟩ sto today) with e | l
    · have hs2 : sortDescE (parsedSnapshots ⟨bp, bkt, none⟩ sto today) = Except.error e := hs
      rw [hs2]
      rfl
    · have hs2 : sortDescE (parsedSnapshots ⟨bp, bkt, none⟩ sto today) = Except.ok l := hs
      rw [hs2]
  · intro h
    simp only [SnapshotCollection.listAll, SnapshotCollection.read_s3, h, listTruthy,
      Bool.false_eq_true, if_false]
    rcases hs : sortDescE (parsedSnapshots c sto today) with e | l
    · exact ⟨parsedSnapshots c sto today, rfl⟩
    · exact ⟨l, rfl⟩

/-- C8 witness: a collection cached with one descriptor ignores an empty
storage and returns the cache; a collection cached with the empty list
behaves like a fresh one against storage that now holds a backup; a fresh
collection gets its attribute populated by the first call. -/
theorem C8_population_caching_witness :
    ((⟨"bp", "bkt", some [snapNamed "20230101"]⟩ : SnapshotCollection).listAll stoEmpty
        "20230101" =
      ((⟨"bp", "bkt", some [snapNamed "20230101"]⟩ : SnapshotCollection),
        Except.ok [snapNamed "20230101"])) ∧
    ((⟨"bp", "bkt", some []⟩ : SnapshotCollection).listAll stoOne "20230101" =
      (freshCollection.listAll stoOne "20230101")) ∧
    (∃ l, ((freshCollection.listAll stoOne "20230101").1).snapshots = some l) :=
  ⟨(C8_population_caching ⟨"bp", "bkt", some [snapNamed "20230101"]⟩ stoEmpty "20230101"
      (snapNamed "20230101") []).1 rfl,
   (C8_population_caching ⟨"bp", "bkt", some []⟩ stoOne "20230101"
      (snapNamed "20230101") []).2.1 rfl,
   (C8_population_caching freshCollection stoOne "20230101"
      (snapNamed "20230101") []).2.2 rfl⟩

/-- C9: an incremental backup (update_snapshot) never runs the cleanup
phase and never writes to the manifest key: whatever the phase outcomes,
the trace holds no clear event and no write to BASE/NAME/manifest.json,
so replaying its writes over any bucket state leaves the stored manifest
object untouched; on the happy path it performs exactly flush-mode start,
upload and the ring write (plus the optional schema dump). -/
theorem C9_incremental_frame (o : Outcomes) (bs : Bool) (s : Snapshot)
    (content : String → String) (sto : String → Option String) :
    ((updateRun o bs s).1.countP isClear = 0) ∧
    ((updateRun o bs s).1.countP (touches (s.base_path ++ "/manifest.json")) = 0) ∧
    (applyWrites content (updateRun o bs s).1 sto (s.base_path ++ "/manifest.json")
      = sto (s.base_path ++ "/manifest.json")) ∧
    (o.startOk = true → o.uploadOk = true → o.writeOk (s.base_path ++ "/ring") = true →
      bs = false →
      updateRun o bs s =
        ([Eff.startBackup true, Eff.uploadBackups true, Eff.s3Write (s.base_path ++ "/ring")],
          true)) := by
  refine ⟨?_, ?_, ?_, ?_⟩
  · rw [List.countP_eq_zero]
    intro e he
    simp [(updateRun_mem o bs s e he).1]
  · rw [List.countP_eq_zero]
    intro e he
    simp [(updateRun_mem o bs s e he).2]
  · exact applyWrites_not_touched content _ sto _
      (fun e he => (updateRun_mem o bs s e he).2)
  · intro h1 h2 h3 h4
    subst h4
    simp [updateRun, h1, h2, h3]

/-- C9 witness: on a fully successful incremental run the manifest key
stays absent from an initially empty bucket, and the trace is exactly
flush-mode start, upload and the ring write. -/
theorem C9_incremental_frame_witness :
    (applyWrites (fun _ => "bytes") (updateRun oAllOk false (snapNamed "20230101")).1
        (fun _ => none) ((snapNamed "20230101").base_path ++ "/manifest.json") = none) ∧
    (updateRun oAllOk false (snapNamed "20230101") =
      ([Eff.startBackup true, Eff.uploadBackups true,
        Eff.s3Write ((snapNamed "20230101").base_path ++ "/ring")], true)) :=
  ⟨(C9_incremental_frame oAllOk false (snapNamed "20230101") (fun _ => "bytes")
      (fun _ => none)).2.2.1,
   (C9_incremental_frame oAllOk false (snapNamed "20230101") (fun _ => "bytes")
      (fun _ => none)).2.2.2 rfl rfl rfl rfl⟩

/-- C10: a stored candidate whose manifest loads fine but whose name the
timestamp parser rejects is accepted into the working list; as soon as at
least one other descriptor was collected, the sort raises the parse error
uncaught, so listAll aborts with ValueError and yields no descriptors at
all, the working list being left unsorted on the attribute. -/
theorem C10_unparseable_name_aborts (sto : Storage) (c : SnapshotCollection) (today : String)
    (hfresh : c.snapshots = none) (bad : Snapshot)
    (hmem : bad ∈ parsedSnapshots c sto today)
    (hname : strptimeYmd bad.name = none)
    (hlen : 2 ≤ (parsedSnapshots c sto today).length) :
    (c.listAll sto today).2 = Except.error PyError.valueError ∧
    ((c.listAll sto today).1).snapshots = some (parsedSnapshots c sto today) := by
  have hsort := sortDescE_err (parsedSnapshots c sto today) hlen ⟨bad, hmem, hname⟩
  constructor <;>
    simp [SnapshotCollection.listAll, SnapshotCollection.read_s3, hfresh, listTruthy, hsort]

/-- C10 witness: one perfectly valid backup next to a valid manifest
named latest makes listAll abort with ValueError, hiding the good
backup. -/
theorem C10_unparseable_name_aborts_witness :
    (snapNamed "latest" ∈ parsedSnapshots freshCollection stoBadName "20230401") ∧
    ((freshCollection.listAll stoBadName "20230401").2 = Except.error PyError.valueError) ∧
    (((freshCollection.listAll stoBadName "20230401").1).snapshots =
      some (parsedSnapshots freshCollection stoBadName "20230401")) :=
  ⟨by decide,
    (C10_unparseable_name_aborts stoBadName freshCollection "20230401" rfl
      (snapNamed "latest") (by decide) (by decide) (by decide)).1,
    (C10_unparseable_name_aborts stoBadName freshCollection "20230401" rfl
      (snapNamed "latest") (by decide) (by decide) (by decide)).2⟩
